import Mathlib

/-!
Verification of the HURA salamander-disease repository.

Part 1: shallow embedding of the compartmental rate model declared in
`src/firstModel.py` (classes `OffspringSI`, `AdultRaRc`, `SIR_v3`).
The source declares symbolic rate expressions over compartment
populations; we embed every rate as an exact rational-valued function of
the population state and the configured parameters (floats in the source
become their exact rational values, e.g. `0.30 = 3/10`,
`1/(365*3) = 1/1095`).

Part 2: shallow embedding of the cumulative-proportion loops in
`src/ATV_time-series.py` and `src/region_ts.py`, and of the
missing-value (`errors='coerce'`) handling of date / CT parsing.
-/

namespace HURA

/-- The node set of the transition graph: the four compartments of the
two strata plus the exogenous `BIRTH` and `DEATH` sinks of the
simulation framework. -/
inductive St where
  | S
  | I
  | R_a
  | R_c
  | BIRTH
  | DEATH
deriving DecidableEq, Repr

/-- A directed transition edge as declared by `edge(src, dst, rate=...)`
in the source, with its rate expression already evaluated at a concrete
population state (rates are exact rationals, hence always finite). -/
structure Edge where
  src : St
  dst : St
  rate : ℚ
deriving DecidableEq, Repr

/-- Parameters required by the offspring compartment model
(`OffspringSI.requirements`). -/
structure OffspringParams where
  beta : ℚ
  death_rate : ℚ
deriving DecidableEq, Repr

/-- Meta-coupling parameters (`SIR_v3.meta_requirements`). -/
structure MetaParams where
  mature_rate : ℚ
  birth_rate : ℚ
  p_vert : ℚ
  p_chronic : ℚ
  p_disease_death : ℚ
deriving DecidableEq, Repr

/-- `N = Max(1, S + I)`: the floored offspring population used as the
transmission denominator in `OffspringSI.edges`. -/
def offspringN (S I : ℚ) : ℚ := max 1 (S + I)

/-- `N_adult = Max(1, R_a + R_c)`: the floored adult population driving
births in `SIR_v3.meta_edges`. -/
def adultN (R_a R_c : ℚ) : ℚ := max 1 (R_a + R_c)

/-- `p_clear = 1 - p_chronic - p_disease_death`: the residual clearance
probability computed (not declared) in `SIR_v3.meta_edges`. -/
def p_clear (p_chronic p_disease_death : ℚ) : ℚ :=
  1 - p_chronic - p_disease_death

namespace OffspringSI

/-- `OffspringSI.edges` (src/firstModel.py lines 64-77): density-dependent
transmission S→I plus natural deaths from each compartment. -/
def edges (p : OffspringParams) (S I : ℚ) : List Edge :=
  [ ⟨St.S, St.I, p.beta * S * I / offspringN S I⟩,
    ⟨St.S, St.DEATH, p.death_rate * S⟩,
    ⟨St.I, St.DEATH, p.death_rate * I⟩ ]

end OffspringSI

namespace AdultRaRc

/-- `AdultRaRc.edges` (src/firstModel.py lines 94-101): natural deaths
only; adults have no internal transmission. -/
def edges (death_rate R_a R_c : ℚ) : List Edge :=
  [ ⟨St.R_a, St.DEATH, death_rate * R_a⟩,
    ⟨St.R_c, St.DEATH, death_rate * R_c⟩ ]

end AdultRaRc

namespace SIR_v3

/-- `SIR_v3.meta_edges` (src/firstModel.py lines 139-171): the three-way
maturation branch of infected offspring and the two birth edges split by
vertical transmission. The commented-out S→R_a edge of the source is not
part of the model and is not embedded. -/
def meta_edges (m : MetaParams) (S I R_a R_c : ℚ) : List Edge :=
  [ ⟨St.I, St.DEATH, m.p_disease_death * m.mature_rate * I⟩,
    ⟨St.I, St.R_c, m.p_chronic * m.mature_rate * I⟩,
    ⟨St.I, St.R_a, p_clear m.p_chronic m.p_disease_death * m.mature_rate * I⟩,
    ⟨St.BIRTH, St.S, (1 - m.p_vert) * m.birth_rate * adultN R_a R_c⟩,
    ⟨St.BIRTH, St.I, m.p_vert * m.birth_rate * adultN R_a R_c⟩ ]

end SIR_v3

/-- Offspring parameters configured in the `SIR_v3().build(...)` call:
`beta = 0.30`, `death_rate = 1/(365*3)`. -/
def cfgOffspring : OffspringParams := ⟨3/10, 1/1095⟩

/-- Adult death rate configured in the build call: `1/(365*3)`. -/
def cfgAdultDeath : ℚ := 1/1095

/-- Meta parameters configured in the build call: `mature_rate = 1/60`,
`birth_rate = 1/120`, `p_vert = 0.60`, `p_chronic = 0.30`,
`p_disease_death = 0.20`. -/
def cfgMeta : MetaParams := ⟨1/60, 1/120, 3/5, 3/10, 1/5⟩

/-- All transition edges of the built v3 model at a population state:
offspring-internal edges, adult-internal edges, and meta edges.
`SIR_v3.build` (src/firstModel.py lines 176-204) assembles exactly these
edge lists with the configured parameters and performs no validation of
the parameter values. -/
def allEdges_v3 (op : OffspringParams) (ad : ℚ) (m : MetaParams)
    (S I R_a R_c : ℚ) : List Edge :=
  OffspringSI.edges op S I ++ AdultRaRc.edges ad R_a R_c ++
    SIR_v3.meta_edges m S I R_a R_c

/-- Population split (src/firstModel.py lines 44-46):
`adult_pop = floor(total_pop * 0.40)` per site. -/
def adult_pop (n : ℕ) : ℕ := Nat.floor ((n : ℚ) * (2/5))

/-- `offspring_pop = total_pop - adult_pop` (src/firstModel.py line 46). -/
def offspring_pop (n : ℕ) : ℕ := n - adult_pop n

/-! ### Plotting pipeline (`ATV_time-series.py`, `region_ts.py`) -/

/-- A parsed collection date: calendar year and day-of-year ordinal.
Only the year is consulted by the aggregation code. -/
structure PDate where
  year : ℤ
  ordinal : ℕ
deriving DecidableEq, Repr

/-- A swab record after the coercing parse step
(`pd.to_datetime(..., errors='coerce')`,
`pd.to_numeric(..., errors='coerce')`): a parsing failure is the
missing-value sentinel `none` (NaT / NaN) rather than an exception. -/
structure SwabRow where
  collection_date : Option PDate
  CT : Option ℚ
  sampleType : String
deriving DecidableEq, Repr

/-- `is_positive = CT > 0`: a pandas comparison with NaN is `False`, so a
row whose CT failed to parse is never flagged positive. -/
def isPositive (r : SwabRow) : Bool :=
  match r.CT with
  | some c => decide (0 < c)
  | none => false

/-- `year = collection_date.dt.year`: NaT yields a missing year. -/
def rowYear (r : SwabRow) : Option ℤ :=
  r.collection_date.map PDate.year

/-- `total_<y> = len(s_samples[s_samples['year'] == y])`: the per-year
total-test denominator counts the type-"S" rows whose parsed year equals
`y`; a NaT date never equals any year. -/
def totalTestsYear (rows : List SwabRow) (y : ℤ) : ℕ :=
  ((rows.filter (fun r => r.sampleType = "S")).filter
    (fun r => rowYear r = some y)).length

/-- The positive count among the type-"S" rows of year `y`: the sum of
`is_positive` over the year's rows, as accumulated date group by date
group in the per-year loop. -/
def posCountYear (rows : List SwabRow) (y : ℤ) : ℕ :=
  (((rows.filter (fun r => r.sampleType = "S")).filter
    (fun r => rowYear r = some y)).filter (fun r => isPositive r)).length

/-- One emitted record of the per-year cumulative loop (the fields of the
dict appended to `results` that the claims are about). -/
structure Row where
  cumulative_total : ℕ
  cumulative_positive : ℕ
  proportion_infected : ℚ
deriving DecidableEq, Repr

/-- The per-year cumulative loop (ATV_time-series.py lines 43-66,
region_ts.py lines 48-72): given the fixed per-year denominator `total`
and the sorted per-date positive counts, it threads the running
`cumulative_pos` accumulator and emits one row per date with
`proportion = cumulative_pos / total if total > 0 else 0`. -/
def yearLoop (total : ℕ) (acc : ℕ) : List ℕ → List Row
  | [] => []
  | c :: cs =>
    { cumulative_total := total,
      cumulative_positive := acc + c,
      proportion_infected :=
        if 0 < total then ((acc + c : ℕ) : ℚ) / (total : ℚ) else 0 } ::
      yearLoop total (acc + c) cs

end HURA

namespace HURA

/-! ### Theorems -/

/-- C2: The offspring S→I transition rate equals
`beta * S * I / max(1, S + I)` for all non-negative `S` and `I`, and it
is exactly 0 whenever `S = 0` or `I = 0`. -/
theorem sToI_rate_eq (p : OffspringParams) (S I : ℚ) (e : Edge)
    (hS : 0 ≤ S) (hI : 0 ≤ I)
    (he : e ∈ OffspringSI.edges p S I)
    (hs : e.src = St.S) (hd : e.dst = St.I) :
    e.rate = p.beta * S * I / max 1 (S + I) ∧
      (S = 0 ∨ I = 0 → e.rate = 0) := by
  simp only [OffspringSI.edges, List.mem_cons, List.not_mem_nil, or_false] at he
  rcases he with h | h | h
  · subst h
    refine ⟨rfl, ?_⟩
    rintro (rfl | rfl) <;> simp [offspringN]
  · subst h; simp at hd
  · subst h; simp at hs

/-- Witness for `sToI_rate_eq`: with `beta = 0.3`, `S = 0`, `I = 5`, the
S→I edge is in the offspring edge list and its rate is exactly 0. -/
theorem sToI_rate_eq_witness :
    (0:ℚ) ≤ 0 ∧ (0:ℚ) ≤ 5 ∧
    (⟨St.S, St.I, 0⟩ : Edge) ∈ OffspringSI.edges cfgOffspring 0 5 ∧
    (⟨St.S, St.I, 0⟩ : Edge).rate = 0 :=
  ⟨le_rfl, by norm_num,
    by simp [OffspringSI.edges, cfgOffspring, offspringN],
    (sToI_rate_eq cfgOffspring 0 5 ⟨St.S, St.I, 0⟩ le_rfl (by norm_num)
      (by simp [OffspringSI.edges, cfgOffspring, offspringN]) rfl rfl).2
      (Or.inl rfl)⟩

/-- C3: Every population denominator is floored at 1: with
`S = I = 0` the offspring denominator is 1, with `R_a = R_c = 0` the
adult birth factor is 1, and for every non-negative population state
both floored denominators are at least 1 (hence positive: no division by
zero and no negative denominator). -/
theorem denominator_floor (S I R_a R_c : ℚ)
    (hS : 0 ≤ S) (hI : 0 ≤ I) (hRa : 0 ≤ R_a) (hRc : 0 ≤ R_c) :
    offspringN 0 0 = 1 ∧ adultN 0 0 = 1 ∧
      1 ≤ offspringN S I ∧ 1 ≤ adultN R_a R_c :=
  ⟨by norm_num [offspringN], by norm_num [adultN],
    le_max_left _ _, le_max_left _ _⟩

/-- Witness for `denominator_floor` at the all-zero population state. -/
theorem denominator_floor_witness :
    (0:ℚ) ≤ 0 ∧
    (offspringN 0 0 = 1 ∧ adultN 0 0 = 1 ∧
      1 ≤ offspringN 0 0 ∧ 1 ≤ adultN 0 0) :=
  ⟨le_rfl, denominator_floor 0 0 0 0 le_rfl le_rfl le_rfl le_rfl⟩

/-- C4: The infected-offspring maturation consists of exactly three
meta edges out of `I` — to `DEATH` at `p_disease_death * mature_rate * I`,
to `R_c` at `p_chronic * mature_rate * I`, and to `R_a` at
`p_clear * mature_rate * I` — with `p_clear` the exact residual
`1 - p_chronic - p_disease_death`; at `p_chronic = 0.30`,
`p_disease_death = 0.20` the residual is exactly `0.50`. -/
theorem maturation_three_way (m : MetaParams) (S I R_a R_c : ℚ) :
    (SIR_v3.meta_edges m S I R_a R_c).filter (fun e => e.src == St.I) =
      [ ⟨St.I, St.DEATH, m.p_disease_death * m.mature_rate * I⟩,
        ⟨St.I, St.R_c, m.p_chronic * m.mature_rate * I⟩,
        ⟨St.I, St.R_a,
          p_clear m.p_chronic m.p_disease_death * m.mature_rate * I⟩ ] ∧
    p_clear m.p_chronic m.p_disease_death =
      1 - m.p_chronic - m.p_disease_death ∧
    p_clear (3/10) (1/5) = 1/2 :=
  ⟨rfl, rfl, by norm_num [p_clear]⟩

/-- C5: The build step performs no validation of the
branch-probability invariant: there are meta parameters with
`p_chronic + p_disease_death > 1` (here `0.8 + 0.5`) for which, at a
state with `I = 1 > 0`, the I→R_a meta-edge rate
`p_clear * mature_rate * I` is negative. -/
theorem no_branch_validation_negative_rate :
    ∃ m : MetaParams, 1 < m.p_chronic + m.p_disease_death ∧
      ∃ e ∈ SIR_v3.meta_edges m 0 1 0 0,
        e.src = St.I ∧ e.dst = St.R_a ∧ e.rate < 0 := by
  refine ⟨⟨1/60, 1/120, 3/5, 4/5, 1/2⟩, by norm_num,
    ⟨St.I, St.R_a, p_clear (4/5) (1/2) * (1/60) * 1⟩, ?_, rfl, rfl, ?_⟩
  · simp [SIR_v3.meta_edges]
  · norm_num [p_clear]

/-- C6: The population split `adult_pop = floor(n * 0.40)`,
`offspring_pop = n - adult_pop` conserves the total for every
non-negative integer `n`; in particular `n = 100` gives 40 adults and 60
offspring. -/
theorem population_split_conserves :
    (∀ n : ℕ, adult_pop n + offspring_pop n = n) ∧
      adult_pop 100 = 40 ∧ offspring_pop 100 = 60 := by
  have key : ∀ n : ℕ, adult_pop n ≤ n := by
    intro n
    have h : ((n : ℚ) * (2/5)) ≤ (n : ℚ) :=
      mul_le_of_le_one_right (Nat.cast_nonneg n) (by norm_num)
    calc adult_pop n ≤ Nat.floor ((n : ℚ)) := Nat.floor_le_floor h
      _ = n := Nat.floor_natCast n
  have h100 : adult_pop 100 = 40 := by
    have h : ((100 : ℕ) : ℚ) * (2/5) = ((40 : ℕ) : ℚ) := by norm_num
    rw [adult_pop, h, Nat.floor_natCast]
  refine ⟨fun n => ?_, h100, ?_⟩
  · rw [offspring_pop, Nat.add_sub_cancel' (key n)]
  · rw [offspring_pop, h100]

/-- C10: For all parameter values and all states, the three
I-maturation meta-edge rates sum exactly to `mature_rate * I` (the
residual `p_clear` makes total outflow independent of the branch split),
and the two birth edge rates sum exactly to
`birth_rate * max(1, R_a + R_c)` independent of `p_vert`. -/
theorem maturation_outflow_total (m : MetaParams) (S I R_a R_c : ℚ) :
    (((SIR_v3.meta_edges m S I R_a R_c).filter
        (fun e => e.src == St.I)).map Edge.rate).sum = m.mature_rate * I ∧
    (((SIR_v3.meta_edges m S I R_a R_c).filter
        (fun e => e.src == St.BIRTH)).map Edge.rate).sum =
      m.birth_rate * adultN R_a R_c := by
  constructor <;>
    simp only [SIR_v3.meta_edges, List.filter, List.map, List.sum_cons,
      List.sum_nil, p_clear] <;>
    ring

/-- C1: With the configured parameter values, every transition rate
of the built model (offspring edges, adult edges, meta edges) is
non-negative at every non-negative population state. Rates are exact
rationals in this embedding, hence always finite. -/
theorem edge_rates_nonneg (S I R_a R_c : ℚ) (e : Edge)
    (hS : 0 ≤ S) (hI : 0 ≤ I) (hRa : 0 ≤ R_a) (hRc : 0 ≤ R_c)
    (he : e ∈ allEdges_v3 cfgOffspring cfgAdultDeath cfgMeta S I R_a R_c) :
    0 ≤ e.rate := by
  have hN : (0:ℚ) < offspringN S I :=
    lt_of_lt_of_le one_pos (le_max_left _ _)
  have hA : (0:ℚ) ≤ adultN R_a R_c :=
    le_trans zero_le_one (le_max_left _ _)
  simp only [allEdges_v3, OffspringSI.edges, AdultRaRc.edges,
    SIR_v3.meta_edges, cfgOffspring, cfgAdultDeath, cfgMeta,
    List.mem_append, List.mem_cons, List.not_mem_nil, or_false] at he
  rcases he with ((h | h | h) | (h | h)) | (h | h | h | h | h) <;>
    subst h <;> dsimp only
  · exact div_nonneg (by positivity) hN.le
  · positivity
  · positivity
  · positivity
  · positivity
  · positivity
  · positivity
  · have hc : p_clear (3/10) (1/5) = 1/2 := by norm_num [p_clear]
    rw [hc]; positivity
  · have h1 : (0:ℚ) ≤ 1 - 3/5 := by norm_num
    exact mul_nonneg (mul_nonneg h1 (by norm_num)) hA
  · exact mul_nonneg (by norm_num) hA

/-- Witness for `edge_rates_nonneg` at the all-zero population state and
the S→I edge (whose rate there is 0). -/
theorem edge_rates_nonneg_witness :
    (0:ℚ) ≤ 0 ∧
    (⟨St.S, St.I, 0⟩ : Edge) ∈
      allEdges_v3 cfgOffspring cfgAdultDeath cfgMeta 0 0 0 0 ∧
    0 ≤ (⟨St.S, St.I, 0⟩ : Edge).rate :=
  ⟨le_rfl,
    by simp [allEdges_v3, OffspringSI.edges, cfgOffspring, offspringN],
    edge_rates_nonneg 0 0 0 0 ⟨St.S, St.I, 0⟩ le_rfl le_rfl le_rfl le_rfl
      (by simp [allEdges_v3, OffspringSI.edges, cfgOffspring, offspringN])⟩

lemma yearLoop_cumPos_chain (total acc : ℕ) (cs : List ℕ) :
    List.Chain (· ≤ ·) acc
      ((yearLoop total acc cs).map Row.cumulative_positive) := by
  induction cs generalizing acc with
  | nil => exact List.Chain.nil
  | cons c cs ih =>
    simp only [yearLoop, List.map_cons]
    exact List.Chain.cons (Nat.le_add_right acc c) (ih (acc + c))

/-- C7: Within each year, the cumulative positive counts emitted by
the cumulative-proportion loop are monotonically non-decreasing in date
order; per-date positive counts 1, 0, 2 yield the cumulative sequence
1, 1, 3. -/
theorem cumulative_monotone (total : ℕ) (counts : List ℕ) :
    List.Chain' (· ≤ ·)
      ((yearLoop total 0 counts).map Row.cumulative_positive) ∧
    (yearLoop total 0 [1, 0, 2]).map Row.cumulative_positive =
      [1, 1, 3] := by
  constructor
  · cases counts with
    | nil => exact trivial
    | cons c cs =>
      simp only [yearLoop, List.map_cons]
      exact yearLoop_cumPos_chain total (0 + c) cs
  · rfl

lemma yearLoop_rows (total : ℕ) (cs : List ℕ) (r : Row) :
    ∀ acc, r ∈ yearLoop total acc cs →
      r.cumulative_total = total ∧
        r.proportion_infected =
          if 0 < total then (r.cumulative_positive : ℚ) / (total : ℚ)
          else 0 := by
  induction cs with
  | nil => intro acc hr; simp [yearLoop] at hr
  | cons c cs ih =>
    intro acc hr
    simp only [yearLoop, List.mem_cons] at hr
    rcases hr with rfl | hr
    · exact ⟨rfl, rfl⟩
    · exact ih (acc + c) hr

/-- C8: Every emitted row's `proportion_infected` equals
`cumulative_positive / cumulative_total` when the year's total is
positive, and equals 0 when the total is 0 (the guard, not a
division-by-zero fault). -/
theorem proportion_guarded (total : ℕ) (counts : List ℕ) (r : Row)
    (hr : r ∈ yearLoop total 0 counts) :
    (0 < total →
      r.proportion_infected =
        (r.cumulative_positive : ℚ) / (r.cumulative_total : ℚ)) ∧
    (total = 0 → r.proportion_infected = 0) := by
  obtain ⟨ht, hp⟩ := yearLoop_rows total counts r 0 hr
  constructor
  · intro h
    rw [hp, if_pos h, ht]
  · intro h
    subst h
    rw [hp]
    simp

/-- Witness for `proportion_guarded`: the single row emitted for a year
with total 2 and one date carrying 1 positive has proportion 1/2. -/
theorem proportion_guarded_witness :
    (⟨2, 1, 1/2⟩ : Row) ∈ yearLoop 2 0 [1] ∧
    ((0 < 2 →
      (⟨2, 1, 1/2⟩ : Row).proportion_infected =
        ((⟨2, 1, 1/2⟩ : Row).cumulative_positive : ℚ) /
          ((⟨2, 1, 1/2⟩ : Row).cumulative_total : ℚ)) ∧
     ((2:ℕ) = 0 → (⟨2, 1, 1/2⟩ : Row).proportion_infected = 0)) :=
  ⟨by simp [yearLoop],
    proportion_guarded 2 [1] ⟨2, 1, 1/2⟩ (by simp [yearLoop])⟩

/-- C9 counterexample: A row whose CT failed to parse (sentinel
`none`) but whose date parsed to 2019 is a malformed row that *does*
contribute to the per-year total-test denominator: with it,
`total_2019 = 1`; without it, `total_2019 = 0`. So not every malformed
row is excluded from all aggregation. -/
theorem ct_malformed_row_in_denominator :
    (⟨some ⟨2019, 100⟩, none, "S"⟩ : SwabRow).CT = none ∧
    totalTestsYear [⟨some ⟨2019, 100⟩, none, "S"⟩] 2019 = 1 ∧
    totalTestsYear [] 2019 = 0 := by
  refine ⟨rfl, ?_, rfl⟩
  simp [totalTestsYear, rowYear]

/-- C9 amended: Parsing failures are coerced to the missing-value
sentinel rather than raised; a row whose date failed to parse is
excluded from both the per-year denominators and the positive counts,
and a row whose CT failed to parse is never flagged positive and is
excluded from the positive counts (though it still counts in the
denominator when its date parsed). -/
theorem malformed_row_exclusion (rows : List SwabRow) (r : SwabRow)
    (y : ℤ) :
    (r.collection_date = none →
      totalTestsYear (rows ++ [r]) y = totalTestsYear rows y ∧
      posCountYear (rows ++ [r]) y = posCountYear rows y) ∧
    (r.CT = none →
      isPositive r = false ∧
      posCountYear (rows ++ [r]) y = posCountYear rows y) := by
  constructor
  · intro h
    have hy : rowYear r = none := by simp [rowYear, h]
    constructor <;>
      by_cases hS : r.sampleType = "S" <;>
        simp [totalTestsYear, posCountYear, List.filter_append,
          List.filter, hy, hS]
  · intro h
    have hpos : isPositive r = false := by simp [isPositive, h]
    refine ⟨hpos, ?_⟩
    by_cases hS : r.sampleType = "S" <;>
      by_cases hyr : rowYear r = some y <;>
        simp [posCountYear, List.filter_append, List.filter, hpos, hS, hyr]

/-- Witness for `malformed_row_exclusion`: a fully unparsable row (NaT
date, NaN CT) is excluded from the 2019 denominator and positive count,
and is not flagged positive. -/
theorem malformed_row_exclusion_witness :
    (⟨none, none, "S"⟩ : SwabRow).collection_date = none ∧
    (totalTestsYear [⟨none, none, "S"⟩] 2019 = totalTestsYear [] 2019 ∧
      posCountYear [⟨none, none, "S"⟩] 2019 = posCountYear [] 2019) ∧
    isPositive ⟨none, none, "S"⟩ = false :=
  ⟨rfl,
    by
      have h := (malformed_row_exclusion [] ⟨none, none, "S"⟩ 2019).1 rfl
      simpa using h,
    ((malformed_row_exclusion [] ⟨none, none, "S"⟩ 2019).2 rfl).1⟩

end HURA
